import Mathlib

/-!
Shallow embedding of the shazamq-operator reconciler (src/crd.rs,
src/reconciler.rs, src/main.rs).

Rust `i32`/`i64` counters are modelled as `Int`; `BTreeMap<String,String>`
as a key-sorted association list with an insert that overwrites an existing
key (the semantics of `BTreeMap::insert`, which `extend` iterates);
`Option<T>` as `Option`; `anyhow::Result` as `Except String`.  The async
Kubernetes API calls of `Reconciler::reconcile` are modelled by an oracle
(`Platform`) giving the outcome of each call, and `reconcile` returns the
trace of calls it issued together with its result.
-/

namespace Shazamq

/-! ### Data model (src/crd.rs) -/

structure StorageConfig where
  segment_bytes : Option Int
  retention_hours : Option Int
  retention_bytes : Option Int
  deriving Repr, DecidableEq

/-- The Rust field `prefix` is a Lean keyword, hence the trailing
underscore. -/
structure S3Config where
  bucket : String
  region : String
  prefix_ : String
  endpoint : Option String
  credentials_secret : Option String
  deriving Repr, DecidableEq

structure TieredStorageConfig where
  enabled : Bool
  provider : String
  hot_tier_retention_hours : Option Int
  s3 : Option S3Config
  deriving Repr, DecidableEq

structure MirrorSource where
  name : String
  bootstrap_servers : String
  security_protocol : String
  sasl_mechanism : Option String
  credentials_secret : Option String
  topic_whitelist : List String
  topic_blacklist : Option (List String)
  consumer_group_id : String
  num_consumers : Option Int
  exactly_once : Option Bool
  deriving Repr, DecidableEq

structure MirrorConfig where
  enabled : Bool
  sources : List MirrorSource
  deriving Repr, DecidableEq

structure ReplicationConfig where
  default_replication_factor : Int
  min_insync_replicas : Int
  deriving Repr, DecidableEq

structure ResourceList where
  cpu : Option String
  memory : Option String
  deriving Repr, DecidableEq

structure ResourceRequirements where
  requests : Option ResourceList
  limits : Option ResourceList
  deriving Repr, DecidableEq

structure ServiceConfig where
  service_type : String
  port : Int
  metrics_port : Int
  deriving Repr, DecidableEq

structure TlsConfig where
  enabled : Bool
  secret_name : String
  deriving Repr, DecidableEq

structure AuthConfig where
  enabled : Bool
  mechanism : String
  secret_name : String
  deriving Repr, DecidableEq

structure SecurityConfig where
  enabled : Bool
  tls : Option TlsConfig
  auth : Option AuthConfig
  deriving Repr, DecidableEq

structure ServiceMonitorConfig where
  enabled : Bool
  interval : String
  scrape_timeout : String
  deriving Repr, DecidableEq

structure MonitoringConfig where
  enabled : Bool
  service_monitor : Option ServiceMonitorConfig
  deriving Repr, DecidableEq

/-- A `BTreeMap<String, String>` is modelled as a key-sorted association
list; see `btInsert` below for the map operations used by the reconciler. -/
abbrev StringMap := List (String × String)

structure ShazamqClusterSpec where
  replicas : Int
  version : String
  image : String
  image_pull_policy : String
  storage : Option StorageConfig
  tiered_storage : Option TieredStorageConfig
  mirror : Option MirrorConfig
  replication : Option ReplicationConfig
  resources : Option ResourceRequirements
  pod_annotations : Option StringMap
  pod_labels : Option StringMap
  node_selector : Option StringMap
  service : Option ServiceConfig
  security : Option SecurityConfig
  monitoring : Option MonitoringConfig
  deriving Repr, DecidableEq

structure StatusCondition where
  type_ : String
  status : String
  last_transition_time : String
  reason : Option String
  message : Option String
  deriving Repr, DecidableEq

structure BrokerStatus where
  id : Int
  pod : String
  ready : Bool
  leader : Bool
  deriving Repr, DecidableEq

structure ShazamqClusterStatus where
  phase : Option String
  replicas : Option Int
  ready_replicas : Option Int
  conditions : Option (List StatusCondition)
  brokers : Option (List BrokerStatus)
  deriving Repr, DecidableEq

/-- Object metadata as used by the reconciler (`kube` / `k8s_openapi`
`ObjectMeta`): name, namespace, labels, annotations.  The Rust field
`namespace` is a Lean keyword, hence the trailing underscore. -/
structure ObjectMeta where
  name : Option String := none
  namespace_ : Option String := none
  labels : Option StringMap := none
  annotations : Option StringMap := none
  deriving Repr, DecidableEq

/-- The custom resource: metadata, spec, status. -/
structure ShazamqCluster where
  metadata : ObjectMeta
  spec : ShazamqClusterSpec
  status : Option ShazamqClusterStatus := none
  deriving Repr, DecidableEq

-- Default values (src/crd.rs)

def default_version : String := "0.1.1-rc1"

def default_image : String := "shazamq/shazamq"

def default_pull_policy : String := "IfNotPresent"

/-! ### BTreeMap operations

`BTreeMap::insert` stores key-sorted and overwrites an existing key;
`BTreeMap::extend(other)` inserts every entry of `other` in order. -/

/-- Lexicographic order on code points, the order `BTreeMap<String, _>`
keeps its keys in (written out so that it evaluates by kernel reduction;
`String.decidableLT` does not). -/
def charLtB (a b : Char) : Bool := a.toNat < b.toNat

def strLtB : List Char → List Char → Bool
  | _, [] => false
  | [], _ :: _ => true
  | a :: as, b :: bs =>
    if charLtB a b then true
    else if charLtB b a then false
    else strLtB as bs

def btInsert : StringMap → String → String → StringMap
  | [], k, v => [(k, v)]
  | (k', v') :: rest, k, v =>
    if strLtB k.data k'.data then (k, v) :: (k', v') :: rest
    else if k = k' then (k, v) :: rest
    else (k', v') :: btInsert rest k v

def btExtend (m : StringMap) (other : StringMap) : StringMap :=
  List.foldl (fun acc kv => btInsert acc kv.1 kv.2) m other

def btLookup : StringMap → String → Option String
  | [], _ => none
  | (k', v') :: rest, k => if k = k' then some v' else btLookup rest k

/-! ### kube helpers

`ResourceExt::name_any` returns `metadata.name`, falling back to
`metadata.generateName` (not modelled: never set here) and then `""`. -/

def name_any (c : ShazamqCluster) : String :=
  (c.metadata.name).getD ""

/-- `Action::requeue(Duration::from_secs(n))`: the requeue directive, in
seconds. -/
inductive Action where
  | requeue (secs : Nat)
  deriving Repr, DecidableEq

/-! ### Label helpers (reconciler.rs, `common_labels` / `selector_labels`) -/

def common_labels (name : String) : StringMap :=
  btInsert (btInsert (btInsert [] "app" "shazamq")
    "shazamq.io/cluster" name) "managed-by" "shazamq-operator"

def selector_labels (name : String) : StringMap :=
  btInsert (btInsert [] "app" "shazamq") "shazamq.io/cluster" name

/-! ### Config generation (reconciler.rs, `generate_config_toml`)

The sequence of `push_str` calls is embedded as string concatenation,
split into one definition per contiguous section of the source. -/

def brokerSection : String :=
  "[broker]\nhost = \"0.0.0.0\"\nport = 9092\ndata_dir = \"/data/shazamq\"\n\n"

def storageSection (storage : Option StorageConfig) : String :=
  "[storage]\n" ++
  (match storage with
   | none => ""
   | some st =>
     (match st.segment_bytes with
      | none => ""
      | some n => "segment_bytes = " ++ toString n ++ "\n") ++
     (match st.retention_hours with
      | none => ""
      | some n => "retention_hours = " ++ toString n ++ "\n")) ++
  "\n"

def metricsSection : String :=
  "[metrics]\nenabled = true\nhost = \"0.0.0.0\"\nport = 9090\n\n"

def s3Part (s3 : Option S3Config) : String :=
  match s3 with
  | none => ""
  | some s =>
    "\n[tiered_storage.s3]\nbucket = \"" ++ s.bucket ++
    "\"\nregion = \"" ++ s.region ++
    "\"\nprefix = \"" ++ s.prefix_ ++ "\"\n"

def tieredSection (t : Option TieredStorageConfig) : String :=
  match t with
  | none => ""
  | some tc =>
    if tc.enabled then
      "[tiered_storage]\nenabled = true\nprovider = \"" ++ tc.provider ++
        "\"\n" ++ s3Part tc.s3 ++ "\n"
    else ""

/-- The `for (i, topic) in ... enumerate()` loop: entries joined by `", "`,
each wrapped in double quotes. -/
def renderTopics : List String → String
  | [] => ""
  | [t] => "\"" ++ t ++ "\""
  | t :: rest => "\"" ++ t ++ "\", " ++ renderTopics rest

def renderMirrorSource (s : MirrorSource) : String :=
  "[[mirror.sources]]\nname = \"" ++ s.name ++
  "\"\nbootstrap_servers = \"" ++ s.bootstrap_servers ++
  "\"\nsecurity_protocol = \"" ++ s.security_protocol ++
  "\"\nconsumer_group_id = \"" ++ s.consumer_group_id ++
  "\"\ntopic_whitelist = [" ++ renderTopics s.topic_whitelist ++ "]\n\n"

def mirrorSection (m : Option MirrorConfig) : String :=
  match m with
  | none => ""
  | some mc =>
    if mc.enabled then
      "[mirror]\nenabled = true\n\n" ++
        String.join (mc.sources.map renderMirrorSource)
    else ""

def generate_config_toml (cluster : ShazamqCluster) : String :=
  brokerSection ++
  storageSection cluster.spec.storage ++
  metricsSection ++
  tieredSection cluster.spec.tiered_storage ++
  mirrorSection cluster.spec.mirror

/-! ### Status projection (reconciler.rs, `update_status` lines 353-370) -/

def compute_phase (replicas ready_replicas : Int) : String :=
  if ready_replicas = replicas then "Running"
  else if ready_replicas > 0 then "Updating"
  else "Creating"

structure StatefulSetStatusE where
  ready_replicas : Option Int
  deriving Repr, DecidableEq

def project_status (cluster : ShazamqCluster)
    (stsStatus : Option StatefulSetStatusE) : ShazamqClusterStatus :=
  let ready_replicas := (stsStatus.bind StatefulSetStatusE.ready_replicas).getD 0
  let replicas := cluster.spec.replicas
  { phase := some (compute_phase replicas ready_replicas)
    replicas := some replicas
    ready_replicas := some ready_replicas
    conditions := none
    brokers := none }

/-! ### Kubernetes object descriptors (the fields the reconciler sets) -/

structure ConfigMapE where
  metadata : ObjectMeta
  data : Option StringMap
  deriving Repr, DecidableEq

structure ServicePortE where
  name : Option String := none
  port : Int
  target_port : Option Int := none
  deriving Repr, DecidableEq

structure ServiceSpecE where
  type_ : Option String := none
  cluster_ip : Option String := none
  selector : Option StringMap := none
  ports : Option (List ServicePortE) := none
  deriving Repr, DecidableEq

structure ServiceE where
  metadata : ObjectMeta
  spec : Option ServiceSpecE
  deriving Repr, DecidableEq

structure EnvVarE where
  name : String
  value : Option String := none
  deriving Repr, DecidableEq

structure ContainerPortE where
  name : Option String := none
  container_port : Int
  deriving Repr, DecidableEq

structure VolumeMountE where
  name : String
  mount_path : String
  deriving Repr, DecidableEq

structure ContainerE where
  name : String
  image : Option String := none
  image_pull_policy : Option String := none
  ports : Option (List ContainerPortE) := none
  env : Option (List EnvVarE) := none
  volume_mounts : Option (List VolumeMountE) := none
  args : Option (List String) := none
  deriving Repr, DecidableEq

structure ConfigMapVolumeSourceE where
  name : Option String := none
  deriving Repr, DecidableEq

structure VolumeE where
  name : String
  config_map : Option ConfigMapVolumeSourceE := none
  deriving Repr, DecidableEq

structure PodSpecE where
  containers : List ContainerE
  volumes : Option (List VolumeE) := none
  node_selector : Option StringMap := none
  deriving Repr, DecidableEq

structure PodTemplateSpecE where
  metadata : Option ObjectMeta := none
  spec : Option PodSpecE := none
  deriving Repr, DecidableEq

structure LabelSelectorE where
  match_labels : Option StringMap := none
  deriving Repr, DecidableEq

structure K8sResourceRequirementsE where
  requests : Option StringMap := none
  deriving Repr, DecidableEq

structure PersistentVolumeClaimSpecE where
  access_modes : Option (List String) := none
  resources : Option K8sResourceRequirementsE := none
  deriving Repr, DecidableEq

structure PersistentVolumeClaimE where
  metadata : ObjectMeta
  spec : Option PersistentVolumeClaimSpecE := none
  deriving Repr, DecidableEq

structure StatefulSetSpecE where
  replicas : Option Int := none
  selector : LabelSelectorE
  template : PodTemplateSpecE
  service_name : String
  volume_claim_templates : Option (List PersistentVolumeClaimE) := none
  deriving Repr, DecidableEq

structure StatefulSetE where
  metadata : ObjectMeta
  spec : Option StatefulSetSpecE := none
  status : Option StatefulSetStatusE := none
  deriving Repr, DecidableEq

/-! ### Object builders (the pure part of each `reconcile_*` method) -/

/-- `reconcile_configmap`, lines 70-85: the ConfigMap that is applied. -/
def build_configmap (cluster : ShazamqCluster) (name ns : String) :
    ConfigMapE :=
  let config_toml := generate_config_toml cluster
  let config_data := btInsert [] "config.toml" config_toml
  { metadata :=
      { name := some (name ++ "-config")
        namespace_ := some ns
        labels := some (common_labels name) }
    data := some config_data }

/-- `reconcile_service`, lines 105-139: the client Service. -/
def build_service (cluster : ShazamqCluster) (name ns : String) : ServiceE :=
  let service_config := cluster.spec.service
  let service_type := (service_config.map ServiceConfig.service_type).getD "ClusterIP"
  let port := (service_config.map ServiceConfig.port).getD 9092
  let metrics_port := (service_config.map ServiceConfig.metrics_port).getD 9090
  { metadata :=
      { name := some name
        namespace_ := some ns
        labels := some (common_labels name) }
    spec := some
      { type_ := some service_type
        selector := some (selector_labels name)
        ports := some
          [ { name := some "kafka", port := port, target_port := some 9092 }
          , { name := some "metrics", port := metrics_port,
              target_port := some 9090 } ] } }

/-- `reconcile_headless_service`, lines 159-179 (the cluster argument is
unused by the source function's object construction). -/
def build_headless_service (_cluster : ShazamqCluster) (name ns : String) :
    ServiceE :=
  { metadata :=
      { name := some (name ++ "-headless")
        namespace_ := some ns
        labels := some (common_labels name) }
    spec := some
      { cluster_ip := some "None"
        selector := some (selector_labels name)
        ports := some [ { name := some "kafka", port := 9092 } ] } }

/-- `reconcile_statefulset`, lines 199-329: the StatefulSet that is applied.
Note the pod-label merge on lines 259-262: the selector labels are built
first and the user-supplied `pod_labels` are *extended over* them
(`BTreeMap::extend` overwrites duplicates). -/
def build_statefulset (cluster : ShazamqCluster) (name ns : String) :
    StatefulSetE :=
  let replicas := cluster.spec.replicas
  let version := cluster.spec.version
  let image := cluster.spec.image ++ ":" ++ version
  let env_vars : List EnvVarE :=
    [ { name := "RUST_LOG", value := some "info" } ] ++
    (match cluster.spec.mirror with
     | some mirror =>
       if mirror.enabled then
         [ { name := "SHAZAMQ_MIRROR_ENABLED", value := some "true" } ]
       else []
     | none => [])
  let container : ContainerE :=
    { name := "shazamq"
      image := some image
      image_pull_policy := some cluster.spec.image_pull_policy
      ports := some
        [ { name := some "kafka", container_port := 9092 }
        , { name := some "metrics", container_port := 9090 } ]
      env := some env_vars
      volume_mounts := some
        [ { name := "data", mount_path := "/data/shazamq" }
        , { name := "config", mount_path := "/etc/shazamq" } ]
      args := some ["--config", "/etc/shazamq/config.toml"] }
  let pod_labels :=
    match cluster.spec.pod_labels with
    | some labels => btExtend (selector_labels name) labels
    | none => selector_labels name
  let pod_template : PodTemplateSpecE :=
    { metadata := some
        { labels := some pod_labels
          annotations := cluster.spec.pod_annotations }
      spec := some
        { containers := [container]
          volumes := some
            [ { name := "config"
                config_map := some { name := some (name ++ "-config") } } ]
          node_selector := cluster.spec.node_selector } }
  { metadata :=
      { name := some name
        namespace_ := some ns
        labels := some (common_labels name) }
    spec := some
      { replicas := some replicas
        selector := { match_labels := some (selector_labels name) }
        template := pod_template
        service_name := name ++ "-headless"
        volume_claim_templates := some
          [ { metadata := { name := some "data" }
              spec := some
                { access_modes := some ["ReadWriteOnce"]
                  resources := some
                    { requests := some (btInsert [] "storage" "100Gi") } } } ] } }

/-! ### The reconcile cycle (reconciler.rs `reconcile`, `update_status`;
main.rs error handler)

Each Kubernetes API call of one cycle is recorded as a `Call`; the
`Platform` oracle supplies the outcome of each call
(`anyhow::Result` is modelled as `Except String`). -/

inductive Call where
  | patchConfigMap (ns key : String) (obj : ConfigMapE)
  | patchService (ns key : String) (obj : ServiceE)
  | patchStatefulSet (ns key : String) (obj : StatefulSetE)
  | getStatefulSet (ns key : String)
  | patchStatus (ns key : String) (st : ShazamqClusterStatus)
  deriving Repr, DecidableEq

def callNs : Call → String
  | .patchConfigMap ns _ _ => ns
  | .patchService ns _ _ => ns
  | .patchStatefulSet ns _ _ => ns
  | .getStatefulSet ns _ => ns
  | .patchStatus ns _ _ => ns

def callKey : Call → String
  | .patchConfigMap _ key _ => key
  | .patchService _ key _ => key
  | .patchStatefulSet _ key _ => key
  | .getStatefulSet _ key => key
  | .patchStatus _ key _ => key

structure Platform where
  configMapResult : Except String Unit
  serviceResult : Except String Unit
  headlessResult : Except String Unit
  statefulSetResult : Except String Unit
  getStatefulSetResult : Except String StatefulSetE
  statusResult : Except String Unit

def isOkE {α : Type} : Except String α → Bool
  | .ok _ => true
  | .error _ => false

/-- `Reconciler::reconcile` (lines 32-60): the five steps in their fixed
order — ConfigMap, Service, headless Service, StatefulSet, then
`update_status` (a get followed by a status patch).  `?` propagation stops
the cycle at the first error; on success the cycle ends with
`Action::requeue(300s)`.  The issued calls are returned as a trace. -/
def reconcile (p : Platform) (cluster : ShazamqCluster) :
    List Call × Except String Action :=
  let name := name_any cluster
  let ns := (cluster.metadata.namespace_).getD "default"
  let t1 := [Call.patchConfigMap ns (name ++ "-config")
               (build_configmap cluster name ns)]
  match p.configMapResult with
  | .error e => (t1, .error e)
  | .ok _ =>
  let t2 := t1 ++ [Call.patchService ns name (build_service cluster name ns)]
  match p.serviceResult with
  | .error e => (t2, .error e)
  | .ok _ =>
  let t3 := t2 ++ [Call.patchService ns (name ++ "-headless")
                     (build_headless_service cluster name ns)]
  match p.headlessResult with
  | .error e => (t3, .error e)
  | .ok _ =>
  let t4 := t3 ++ [Call.patchStatefulSet ns name
                     (build_statefulset cluster name ns)]
  match p.statefulSetResult with
  | .error e => (t4, .error e)
  | .ok _ =>
  let t5 := t4 ++ [Call.getStatefulSet ns name]
  match p.getStatefulSetResult with
  | .error e => (t5, .error e)
  | .ok sts =>
  let status := project_status cluster sts.status
  let t6 := t5 ++ [Call.patchStatus ns name status]
  match p.statusResult with
  | .error e => (t6, .error e)
  | .ok _ => (t6, .ok (Action.requeue 300))

/-- The full six-call trace of a cycle in which every call succeeds. -/
def fullCalls (p : Platform) (cluster : ShazamqCluster) : List Call :=
  let name := name_any cluster
  let ns := (cluster.metadata.namespace_).getD "default"
  let stsStatus :=
    match p.getStatefulSetResult with
    | .ok sts => sts.status
    | .error _ => none
  [ Call.patchConfigMap ns (name ++ "-config") (build_configmap cluster name ns)
  , Call.patchService ns name (build_service cluster name ns)
  , Call.patchService ns (name ++ "-headless")
      (build_headless_service cluster name ns)
  , Call.patchStatefulSet ns name (build_statefulset cluster name ns)
  , Call.getStatefulSet ns name
  , Call.patchStatus ns name (project_status cluster stsStatus) ]

def allOk (p : Platform) : Prop :=
  isOkE p.configMapResult = true ∧ isOkE p.serviceResult = true ∧
  isOkE p.headlessResult = true ∧ isOkE p.statefulSetResult = true ∧
  isOkE p.getStatefulSetResult = true ∧ isOkE p.statusResult = true

/-- The error handler passed to `Controller::run` in main.rs (lines 65-73):
on any reconcile error it returns `Action::requeue(60s)`. -/
def error_policy (_obj : ShazamqCluster) (_error : String) : Action :=
  Action.requeue 60

/-! ### Concrete fixtures used by witnesses and counterexamples -/

def specBase : ShazamqClusterSpec :=
  { replicas := 3
    version := default_version
    image := default_image
    image_pull_policy := default_pull_policy
    storage := none
    tiered_storage := none
    mirror := none
    replication := none
    resources := none
    pod_annotations := none
    pod_labels := none
    node_selector := none
    service := none
    security := none
    monitoring := none }

def clusterBase : ShazamqCluster :=
  { metadata := { name := some "demo", namespace_ := some "default" }
    spec := specBase }

def clusterOneReplica : ShazamqCluster :=
  { clusterBase with spec := { specBase with replicas := 1 } }

def clusterEvilLabels : ShazamqCluster :=
  { clusterBase with
    spec := { specBase with pod_labels := some [("app", "evil")] } }

def clusterNoNs : ShazamqCluster :=
  { metadata := { name := some "demo" }, spec := specBase }

def mirrorSourceEx : MirrorSource :=
  { name := "src1"
    bootstrap_servers := "b:9092"
    security_protocol := "PLAINTEXT"
    sasl_mechanism := none
    credentials_secret := none
    topic_whitelist := ["t1", "t2"]
    topic_blacklist := none
    consumer_group_id := "g1"
    num_consumers := none
    exactly_once := none }

def clusterMirror : ShazamqCluster :=
  { clusterBase with
    spec := { specBase with
              mirror := some { enabled := true, sources := [mirrorSourceEx] } } }

def tieredEx : TieredStorageConfig :=
  { enabled := true
    provider := "s3"
    hot_tier_retention_hours := none
    s3 := none }

def platformOk : Platform :=
  { configMapResult := .ok ()
    serviceResult := .ok ()
    headlessResult := .ok ()
    statefulSetResult := .ok ()
    getStatefulSetResult := .ok
      { metadata := {}, spec := none
        status := some { ready_replicas := some 3 } }
    statusResult := .ok () }

/-- The pod-template labels of a built StatefulSet. -/
def stsPodLabels (s : StatefulSetE) : Option StringMap :=
  s.spec.bind fun sp => sp.template.metadata.bind ObjectMeta.labels

/-! ## Theorems -/

/-- C1: the claim says the pod template always carries `app=shazamq` and
`shazamq.io/cluster=N` unmodified, even when `podLabels` conflicts.  The
code builds the selector labels first and then `extend`s them with the
user-supplied `podLabels`, so a user entry for the key `app` *overwrites*
the mandatory value: for `podLabels = {app: evil}` the synthesized pod
template maps `app` to `evil`, while the StatefulSet's own selector still
requires `app=shazamq` — the selector no longer matches the template. -/
theorem pod_labels_user_overrides_selector :
    btLookup ((stsPodLabels
        (build_statefulset clusterEvilLabels "demo" "default")).getD [])
      "app" = some "evil" ∧
    btLookup (selector_labels "demo") "app" = some "shazamq" ∧
    ((build_statefulset clusterEvilLabels "demo" "default").spec.map
        fun sp => sp.selector.match_labels) =
      some (some (selector_labels "demo")) := by
  decide

/-- C2: for `0 ≤ readyReplicas ≤ replicas`, the phase computed by
`update_status` is `Running` iff `readyReplicas = replicas` (including
`replicas = 0`), `Creating` iff `readyReplicas = 0` and `replicas > 0`,
and `Updating` otherwise. -/
theorem phase_table (replicas ready : Int) (h0 : 0 ≤ ready)
    (h1 : ready ≤ replicas) :
    (compute_phase replicas ready = "Running" ↔ ready = replicas) ∧
    (compute_phase replicas ready = "Creating" ↔ ready = 0 ∧ 0 < replicas) ∧
    (compute_phase replicas ready = "Updating" ↔ 0 < ready ∧ ready < replicas) := by
  unfold compute_phase
  split_ifs with he hp
  · refine ⟨⟨fun _ => he, fun _ => rfl⟩, ?_, ?_⟩
    · constructor
      · intro h; exact absurd h (by decide)
      · intro h; omega
    · constructor
      · intro h; exact absurd h (by decide)
      · intro h; omega
  · refine ⟨?_, ?_, ?_⟩
    · constructor
      · intro h; exact absurd h (by decide)
      · intro h; exact absurd h he
    · constructor
      · intro h; exact absurd h (by decide)
      · intro h; omega
    · exact ⟨fun _ => ⟨hp, by omega⟩, fun _ => rfl⟩
  · refine ⟨?_, ?_, ?_⟩
    · constructor
      · intro h; exact absurd h (by decide)
      · intro h; exact absurd h he
    · exact ⟨fun _ => ⟨by omega, by omega⟩, fun _ => rfl⟩
    · constructor
      · intro h; exact absurd h (by decide)
      · intro h; omega

theorem phase_table_witness :
    (0 : Int) ≤ 2 ∧ (2 : Int) ≤ 3 ∧
    (compute_phase 3 2 = "Updating" ↔ 0 < (2 : Int) ∧ (2 : Int) < 3) :=
  ⟨by decide, by decide, (phase_table 3 2 (by decide) (by decide)).2.2⟩

/-- C3 (counterexample): the claim says `readyReplicas ≤ replicas` holds
after every projection, *including* observed counts exceeding
`spec.replicas`.  The code copies the observed ready count unclamped: for
`spec.replicas = 1` and an observed StatefulSet reporting 3 ready
replicas, the written status has `readyReplicas = 3 > 1 = replicas`. -/
theorem status_ready_unclamped_cex :
    (project_status clusterOneReplica
        (some { ready_replicas := some 3 })).replicas = some 1 ∧
    (project_status clusterOneReplica
        (some { ready_replicas := some 3 })).ready_replicas = some 3 ∧
    ¬ (3 : Int) ≤ 1 := by
  decide

/-- C3 (amended): after every projection the written status satisfies
`readyReplicas ≤ replicas` *provided* the observed ready count does not
exceed `spec.replicas`; the code writes the observed count as-is, so when
the observation exceeds `spec.replicas` (e.g. during scale-down), the
written status violates the bound. -/
theorem status_ready_le_replicas (c : ShazamqCluster)
    (st : Option StatefulSetStatusE)
    (h : (st.bind StatefulSetStatusE.ready_replicas).getD 0 ≤ c.spec.replicas) :
    ∃ r rr, (project_status c st).replicas = some r ∧
      (project_status c st).ready_replicas = some rr ∧ rr ≤ r :=
  ⟨c.spec.replicas, (st.bind StatefulSetStatusE.ready_replicas).getD 0,
    rfl, rfl, h⟩

theorem status_ready_le_replicas_witness :
    ∃ r rr, (project_status clusterBase
        (some { ready_replicas := some 3 })).replicas = some r ∧
      (project_status clusterBase
        (some { ready_replicas := some 3 })).ready_replicas = some rr ∧
      rr ≤ r :=
  status_ready_le_replicas clusterBase (some { ready_replicas := some 3 })
    (by decide)

/-- C4: `generate_config_toml` is a pure, deterministic function of the
spec — equal specs produce byte-identical text — and the text is always
the concatenation of the sections in the fixed order broker, storage,
metrics, tiered-storage, mirror, however the optional fields are
populated. -/
theorem config_toml_deterministic (c1 c2 : ShazamqCluster)
    (h : c1.spec = c2.spec) :
    generate_config_toml c1 = generate_config_toml c2 ∧
    generate_config_toml c1 =
      brokerSection ++ storageSection c1.spec.storage ++ metricsSection ++
      tieredSection c1.spec.tiered_storage ++ mirrorSection c1.spec.mirror := by
  constructor
  · unfold generate_config_toml
    rw [h]
  · rfl

theorem config_toml_deterministic_witness :
    generate_config_toml clusterMirror = generate_config_toml clusterMirror ∧
    generate_config_toml clusterMirror =
      brokerSection ++ storageSection clusterMirror.spec.storage ++
      metricsSection ++ tieredSection clusterMirror.spec.tiered_storage ++
      mirrorSection clusterMirror.spec.mirror :=
  config_toml_deterministic clusterMirror clusterMirror rfl

/-- C6: with `mirror.enabled` and exactly one source, the config text's
mirror part is the `[mirror]` header followed by exactly one
`[[mirror.sources]]` block carrying the source's name, bootstrap servers,
security protocol, consumer group id, and the whitelist as a bracketed
literal list (`["t1", "t2"]` style); with `mirror` absent or disabled the
mirror part is empty. -/
theorem mirror_section_rendering (c : ShazamqCluster) :
    (∀ mc s, c.spec.mirror = some mc → mc.enabled = true → mc.sources = [s] →
      mirrorSection c.spec.mirror =
        "[mirror]\nenabled = true\n\n" ++ renderMirrorSource s ∧
      renderMirrorSource s =
        "[[mirror.sources]]\nname = \"" ++ s.name ++
        "\"\nbootstrap_servers = \"" ++ s.bootstrap_servers ++
        "\"\nsecurity_protocol = \"" ++ s.security_protocol ++
        "\"\nconsumer_group_id = \"" ++ s.consumer_group_id ++
        "\"\ntopic_whitelist = [" ++ renderTopics s.topic_whitelist ++ "]\n\n") ∧
    (c.spec.mirror = none → mirrorSection c.spec.mirror = "") ∧
    (∀ mc, c.spec.mirror = some mc → mc.enabled = false →
      mirrorSection c.spec.mirror = "") ∧
    generate_config_toml c =
      brokerSection ++ storageSection c.spec.storage ++ metricsSection ++
      tieredSection c.spec.tiered_storage ++ mirrorSection c.spec.mirror ∧
    renderTopics ["t1", "t2"] = "\"t1\", \"t2\"" := by
  refine ⟨?_, ?_, ?_, rfl, rfl⟩
  · intro mc s hm he hs
    refine ⟨?_, rfl⟩
    rw [hm]
    simp [mirrorSection, he, hs, String.join]
  · intro h; rw [h]; rfl
  · intro mc h he
    rw [h]
    simp [mirrorSection, he]

theorem mirror_section_rendering_witness :
    mirrorSection clusterMirror.spec.mirror =
      "[mirror]\nenabled = true\n\n" ++ renderMirrorSource mirrorSourceEx :=
  ((mirror_section_rendering clusterMirror).1
    { enabled := true, sources := [mirrorSourceEx] } mirrorSourceEx
    rfl rfl rfl).1

/-- C7: with `tieredStorage` absent, or present but disabled, the config
text's tiered-storage part is empty; with it enabled the section is
emitted, and the nested s3 block is empty exactly when `s3` is absent. -/
theorem tiered_section_rendering (c : ShazamqCluster)
    (t : TieredStorageConfig) :
    (c.spec.tiered_storage = none → tieredSection c.spec.tiered_storage = "") ∧
    (t.enabled = false → tieredSection (some t) = "") ∧
    (t.enabled = true → tieredSection (some t) =
      "[tiered_storage]\nenabled = true\nprovider = \"" ++ t.provider ++
        "\"\n" ++ s3Part t.s3 ++ "\n") ∧
    (t.s3 = none → s3Part t.s3 = "") ∧
    generate_config_toml c =
      brokerSection ++ storageSection c.spec.storage ++ metricsSection ++
      tieredSection c.spec.tiered_storage ++ mirrorSection c.spec.mirror := by
  refine ⟨?_, ?_, ?_, ?_, rfl⟩
  · intro h; rw [h]; rfl
  · intro h; simp [tieredSection, h]
  · intro h; simp [tieredSection, h]
  · intro h; rw [h]; rfl

theorem tiered_section_rendering_witness :
    tieredSection clusterBase.spec.tiered_storage = "" ∧
    tieredSection (some tieredEx) =
      "[tiered_storage]\nenabled = true\nprovider = \"" ++
        TieredStorageConfig.provider tieredEx ++ "\"\n" ++
        s3Part (TieredStorageConfig.s3 tieredEx) ++ "\n" :=
  ⟨(tiered_section_rendering clusterBase tieredEx).1 rfl,
   (tiered_section_rendering clusterBase tieredEx).2.2.1 rfl⟩

/-- C8: for a resource named `N`, the subordinate objects applied in one
cycle are the ConfigMap `N-config`, the Service `N`, the headless Service
`N-headless` and the StatefulSet `N`; the StatefulSet references
`N-headless` as its `serviceName` and `N-config` as its config volume
source. -/
theorem subordinate_object_names (p : Platform) (c : ShazamqCluster)
    (N ns : String) :
    (build_configmap c N ns).metadata.name = some (N ++ "-config") ∧
    (build_service c N ns).metadata.name = some N ∧
    (build_headless_service c N ns).metadata.name = some (N ++ "-headless") ∧
    (build_statefulset c N ns).metadata.name = some N ∧
    ((build_statefulset c N ns).spec.map StatefulSetSpecE.service_name) =
      some (N ++ "-headless") ∧
    ((build_statefulset c N ns).spec.map fun sp => sp.template.spec.map
        PodSpecE.volumes) =
      some (some (some
        [{ name := "config"
           config_map := some { name := some (N ++ "-config") } }])) ∧
    (fullCalls p c).map callKey =
      [name_any c ++ "-config", name_any c, name_any c ++ "-headless",
       name_any c, name_any c, name_any c] :=
  ⟨rfl, rfl, rfl, rfl, rfl, rfl, rfl⟩

/-- C9: the config renderer never reads `storage.retentionBytes` — the
produced text is unchanged by any value of that field; of the three
declared storage fields only `segmentBytes` and `retentionHours` are
rendered, and the `[storage]` header is emitted even when `spec.storage`
is entirely absent. -/
theorem storage_retention_bytes_unused (c : ShazamqCluster)
    (st : StorageConfig) (v : Option Int) :
    storageSection (some { st with retention_bytes := v }) =
      storageSection (some st) ∧
    generate_config_toml
        { c with spec := { c.spec with
            storage := (c.spec.storage).map
              fun s => { s with retention_bytes := v } } } =
      generate_config_toml c ∧
    storageSection none = "[storage]\n\n" ∧
    ¬ List.IsInfix "retention_bytes".toList
      (storageSection (some
        { segment_bytes := some 1024, retention_hours := some 24,
          retention_bytes := some 99999 })).toList := by
  refine ⟨rfl, ?_, rfl, by decide⟩
  unfold generate_config_toml
  cases hs : c.spec.storage with
  | none => rfl
  | some s => rfl

/-- C5: one reconcile cycle issues its calls strictly in the order
ConfigMap, Service, headless Service, StatefulSet, then status
(get + patch); when all succeed it returns `requeue(300s)` and the trace
is the full six-call sequence; when a step fails, the trace stops at the
failing call (all later steps are skipped), the step's error is the
cycle's result, and the caller's error handler maps any error to
`requeue(60s)`. -/
theorem reconcile_step_order (p : Platform) (c : ShazamqCluster) :
    (allOk p → reconcile p c = (fullCalls p c, .ok (Action.requeue 300))) ∧
    (∀ e, p.configMapResult = .error e →
      reconcile p c = ((fullCalls p c).take 1, .error e)) ∧
    (∀ e, isOkE p.configMapResult = true → p.serviceResult = .error e →
      reconcile p c = ((fullCalls p c).take 2, .error e)) ∧
    (∀ e, isOkE p.configMapResult = true → isOkE p.serviceResult = true →
      p.headlessResult = .error e →
      reconcile p c = ((fullCalls p c).take 3, .error e)) ∧
    (∀ e, isOkE p.configMapResult = true → isOkE p.serviceResult = true →
      isOkE p.headlessResult = true → p.statefulSetResult = .error e →
      reconcile p c = ((fullCalls p c).take 4, .error e)) ∧
    (∀ e, isOkE p.configMapResult = true → isOkE p.serviceResult = true →
      isOkE p.headlessResult = true → isOkE p.statefulSetResult = true →
      p.getStatefulSetResult = .error e →
      reconcile p c = ((fullCalls p c).take 5, .error e)) ∧
    (∀ e, isOkE p.configMapResult = true → isOkE p.serviceResult = true →
      isOkE p.headlessResult = true → isOkE p.statefulSetResult = true →
      isOkE p.getStatefulSetResult = true → p.statusResult = .error e →
      reconcile p c = (fullCalls p c, .error e)) ∧
    (∀ e, error_policy c e = Action.requeue 60) := by
  rcases p with ⟨r1, r2, r3, r4, r5, r6⟩
  cases r1 <;> cases r2 <;> cases r3 <;> cases r4 <;> cases r5 <;> cases r6 <;>
    simp [reconcile, fullCalls, allOk, isOkE, error_policy, List.take]

theorem reconcile_step_order_witness :
    reconcile platformOk clusterBase =
      (fullCalls platformOk clusterBase, .ok (Action.requeue 300)) :=
  (reconcile_step_order platformOk clusterBase).1
    ⟨rfl, rfl, rfl, rfl, rfl, rfl⟩

/-- C10: a resource carrying no namespace is reconciled in the namespace
`"default"`: every call the cycle issues (the four subordinate applies,
the get, and the status patch) targets `"default"`, and the cycle
succeeds rather than failing. -/
theorem default_namespace (p : Platform) (c : ShazamqCluster)
    (h : c.metadata.namespace_ = none) :
    (∀ call ∈ (reconcile p c).1, callNs call = "default") ∧
    (∀ call ∈ fullCalls p c, callNs call = "default") ∧
    (allOk p → (reconcile p c).2 = .ok (Action.requeue 300)) := by
  rcases p with ⟨r1, r2, r3, r4, r5, r6⟩
  cases r1 <;> cases r2 <;> cases r3 <;> cases r4 <;> cases r5 <;> cases r6 <;>
    simp [reconcile, fullCalls, allOk, isOkE, callNs, h]

theorem default_namespace_witness :
    (reconcile platformOk clusterNoNs).2 = .ok (Action.requeue 300) :=
  (default_namespace platformOk clusterNoNs rfl).2.2
    ⟨rfl, rfl, rfl, rfl, rfl, rfl⟩

end Shazamq
